import Mathlib

/-
  Verification of the Moveo client application.

  Shallow embedding of the two source modules:
    - js/app.js (catalog loading, bookmark store, view state, daily exercise,
      account/session lookup, detail rendering);
    - the React save-exercise module (saveExercise against the remote table).

  Machine-level conventions of the embedding:
    - a JavaScript value that may be `undefined`/`null` is an `Option`;
    - a text slot (a localStorage value, an HTTP response body) is a `JsText`:
      either text that JSON.parse accepts (carrying the parsed value) or text
      it rejects;
    - a function that can raise is embedded in `Except JsError`;
    - the external Supabase collaborator is modelled by its typed response
      shapes (session / user / error fields), as required by the spec, which
      demands that the collaborator expose failures as values.
-/

namespace Moveo

/-- A JSON value as produced by JSON.parse and consumed by JSON.stringify.
Objects are not needed by any operation under verification, so the model
carries the scalar, string and array formers. -/
inductive Json where
  | null
  | bool (b : Bool)
  | num (n : Int)
  | str (s : String)
  | arr (elems : List Json)

/-- Content of a text slot: either text that JSON.parse accepts, carrying the
parsed value, or text that JSON.parse rejects (throws). -/
inductive JsText where
  | invalid
  | json (v : Json)

/-- JSON.parse on a text slot, `none` when the parse throws. -/
def jsonParse : JsText → Option Json
  | .invalid => none
  | .json v => some v

/-- An exercise record of the catalog (data/exercises.json), with the fields
read by app.js.  Optional fields are absent (`none`) when the JSON record
omits them. -/
structure Exercise where
  id : String
  name : String
  description : String
  duration : Nat
  difficulty : String
  category : String
  muscleGroups : List String
  tips : List String
  commonMistakes : Option (List String)
  progression : Option (List String)
  rhythm : Option String
  previewVideo : Option String
deriving Repr, DecidableEq

/-- JavaScript truthiness of an optional string: `undefined` and the empty
string are falsy, every other string is truthy. -/
def truthyStr : Option String → Bool
  | none => false
  | some s => s ≠ ""

/-- The lookup `exercises.find(ex => ex.id === id)` used by initExercisePage
(app.js line 39), viewExercise (line 460) and toggleBookmark (line 707). -/
def findExercise (exercises : List Exercise) (id : String) : Option Exercise :=
  exercises.find? (fun ex => ex.id == id)

/-- getDailyExercise (app.js lines 744-748): `null` on an empty catalog,
otherwise the element at index `new Date().getDate() % exercises.length`.
The calendar day of month is the `dayOfMonth` argument. -/
def getDailyExercise (exercises : List Exercise) (dayOfMonth : Nat) : Option Exercise :=
  if h : exercises.length = 0 then none
  else
    some (exercises.get ⟨dayOfMonth % exercises.length,
      Nat.mod_lt _ (Nat.pos_of_ne_zero h)⟩)

/-- Outcome of the `fetch` in loadExercises: the promise rejects (network
error), or a response arrives with a success flag and a body. -/
inductive FetchOutcome where
  | networkError
  | response (ok : Bool) (body : JsText)

/-- The module state loadExercises acts on: the `exercises` global (whatever
value `response.json()` produced) and whether showError was invoked. -/
structure CatalogState where
  exercises : Json
  errorShown : Bool

/-- loadExercises (app.js lines 317-330).  A rejected fetch, a non-ok
response (the code throws before reading the body) and a body JSON.parse
rejects all land in the catch block: the `exercises` global keeps its
previous value and showError displays a message.  A body that parses is
assigned to `exercises` wholesale, whatever its shape. -/
def loadExercises (pre : Json) : FetchOutcome → CatalogState
  | .networkError => ⟨pre, true⟩
  | .response ok body =>
    if ok then
      match body with
      | .invalid => ⟨pre, true⟩
      | .json v => ⟨v, false⟩
    else ⟨pre, true⟩

/-- Whether a JSON value is a collection (an array), the shape the catalog
endpoint is specified to return. -/
def isCollection : Json → Bool
  | .arr _ => true
  | _ => false

/-- loadBookmarks (app.js lines 333-343): an absent key leaves the
`bookmarkedExercises` global unchanged (it is `[]` at module load); content
JSON.parse rejects is caught and the global set to `[]`; content that parses
is assigned verbatim, whatever its shape. -/
def loadBookmarks (current : Json) (stored : Option JsText) : Json :=
  match stored with
  | none => current
  | some .invalid => .arr []
  | some (.json v) => v

/-- JSON.stringify of an array of identifier strings, as written by
saveBookmarks. -/
def encodeIds (l : List String) : Json := .arr (l.map .str)

/-- Read a list of JSON values back as a list of identifier strings; `none`
when some element is not a string. -/
def decodeStrings : List Json → Option (List String)
  | [] => some []
  | .str s :: rest => (decodeStrings rest).map (fun l => s :: l)
  | _ => none

/-- Read a JSON value back as the array of identifier strings it serializes;
`none` when the value is not such an array. -/
def decodeIds : Json → Option (List String)
  | .arr es => decodeStrings es
  | _ => none

/-- The bookmark store state: the `bookmarkedExercises` global (in its
well-typed shape, a list of identifiers) and the `moveoBookmarks`
localStorage slot (`none` when the key is absent). -/
structure BookmarkState where
  bookmarkedExercises : List String
  moveoBookmarks : Option JsText

/-- saveBookmarks (app.js lines 346-348): synchronously writes
`JSON.stringify(bookmarkedExercises)` to the `moveoBookmarks` slot. -/
def saveBookmarks (s : BookmarkState) : BookmarkState :=
  { s with moveoBookmarks := some (.json (encodeIds s.bookmarkedExercises)) }

/-- The list update of toggleBookmark: `indexOf` finds the first occurrence
and `splice` removes it; otherwise `push` appends at the end. -/
def toggleList (bs : List String) (id : String) : List String :=
  if bs.contains id then bs.erase id else bs ++ [id]

/-- toggleBookmark (app.js lines 693-715): flips membership by
splice-or-push, then calls saveBookmarks before returning.  The function
body has no return statement, so its JavaScript return value is `undefined`,
modelled as the second component `none : Option Bool`. -/
def toggleBookmark (s : BookmarkState) (exerciseId : String) :
    BookmarkState × Option Bool :=
  (saveBookmarks { s with bookmarkedExercises := toggleList s.bookmarkedExercises exerciseId }, none)

/-- The bookmark set the persisted slot deserializes to, when it parses and
decodes at all. -/
def persistedIds (s : BookmarkState) : Option (List String) :=
  s.moveoBookmarks.bind fun c => (jsonParse c).bind decodeIds

/-- The bookmark set the persisted slot deserializes to parses back exactly
when the slot holds a stringified identifier array. -/
def deserializesTo (s : BookmarkState) : Prop :=
  persistedIds s = some s.bookmarkedExercises

/-- A Supabase auth user object, with the fields the application reads:
`u.id`, `u.email` (may be absent) and `u.user_metadata?.name` (the metadata
object or its name field may be absent). -/
structure AuthUser where
  id : String
  email : Option String
  metadataName : Option String
deriving Repr, DecidableEq

/-- A Supabase session object; `session.user` may itself be absent, which
the optional chain `session?.user` collapses. -/
structure Session where
  user : Option AuthUser
deriving Repr, DecidableEq

/-- The typed response of `supabase.auth.getSession()`: a `data.session`
field (possibly null) and an `error` field (possibly null).  Per the spec
the collaborator exposes failures as values of this shape, never by
rejecting. -/
structure GetSessionResponse where
  session : Option Session
  error : Option String
deriving Repr, DecidableEq

/-- Whether `getSupabase()` yields a client (the CDN script loaded), and if
so how its `auth.getSession()` answers. -/
inductive SupabasePresence where
  | absent
  | present (resp : GetSessionResponse)

/-- The SessionUser value getCurrentUser builds. -/
structure SessionUser where
  id : String
  email : Option String
  name : String
deriving Repr, DecidableEq

/-- The JavaScript expression `u.email?.split(\x22@\x22)[0]`: absent when
the email is absent, otherwise the text before the first at-sign (the empty
string splits to one empty field, as in JavaScript). -/
def emailLocalPart : Option String → Option String
  | none => none
  | some e => some ((e.splitOn "@").headD "")

/-- JavaScript `a || b` specialized to optional strings: the left operand
when it is truthy, otherwise the right operand. -/
def jsStrOrElse (a : Option String) (b : String) : String :=
  match a with
  | some s => if s = "" then b else s
  | none => b

/-- The display-name derivation of getCurrentUser (app.js line 111):
metadata name, else email local-part, else the literal fallback. -/
def deriveDisplayName (metadataName email : Option String) : String :=
  jsStrOrElse metadataName (jsStrOrElse (emailLocalPart email) "User")

/-- getCurrentUser (app.js lines 102-113): null without a client; null when
the session lookup reports an error or no session user; otherwise the
SessionUser with the derived display name.  Every step is total on the
collaborator's typed responses, so the embedding is a total function — the
function never raises. -/
def getCurrentUser : SupabasePresence → Option SessionUser
  | .absent => none
  | .present r =>
    if r.error.isSome then none
    else
      match r.session with
      | none => none
      | some sess =>
        match sess.user with
        | none => none
        | some u =>
          some { id := u.id, email := u.email,
                 name := deriveDisplayName u.metadataName u.email }

/-- The row saveExercise inserts into user_saved_exercises. -/
structure SavedRow where
  userId : String
  exerciseId : String
deriving Repr, DecidableEq

/-- The typed response of `supabase.auth.getUser()`: a `data.user` field and
an `error` field. -/
structure GetUserResponse where
  user : Option AuthUser
  error : Option String
deriving Repr, DecidableEq

/-- The typed response of `.insert(row).select().single()`. -/
structure InsertResponse where
  data : Option SavedRow
  error : Option String
deriving Repr, DecidableEq

/-- The Supabase client as saveExercise exercises it: how `auth.getUser()`
answers, and how the single attempted insert answers. -/
structure SupabaseClient where
  getUserResp : GetUserResponse
  insertResp : InsertResponse
deriving Repr, DecidableEq

/-- The result object saveExercise resolves with. -/
structure SaveResult where
  data : Option SavedRow
  error : Option String
deriving Repr, DecidableEq

/-- saveExercise (React module lines 22-64).  Guard clauses return an error
result before any remote call when the client is missing, the identifier is
falsy (empty), the session lookup errors, or no user is logged in; the
session-error branch forwards `sessionError` when present, else the
logged-in message.  The second output component lists the rows the call
attempted to insert remotely (empty when no insert was issued). -/
def saveExercise (client : Option SupabaseClient) (exerciseId : String) :
    SaveResult × List SavedRow :=
  match client with
  | none => (⟨none, some "Supabase client is required"⟩, [])
  | some c =>
    if exerciseId = "" then (⟨none, some "Exercise id is required"⟩, [])
    else
      match c.getUserResp.error, c.getUserResp.user with
      | some e, _ => (⟨none, some e⟩, [])
      | none, none => (⟨none, some "You must be logged in to save an exercise"⟩, [])
      | none, some u =>
        let row : SavedRow := ⟨u.id, exerciseId⟩
        match c.insertResp.error with
        | some e => (⟨none, some e⟩, [row])
        | none => (⟨c.insertResp.data, none⟩, [row])

/-- getCategoryIcon (app.js lines 771-779). -/
def getCategoryIcon (category : String) : String :=
  if category = "strength" then "💪"
  else if category = "cardio" then "❤️"
  else if category = "flexibility" then "🧘"
  else if category = "balance" then "⚖️"
  else "⭐"

/-- The transient detail-view flags, the module globals of app.js lines
8-10 (`animationSpeed`, `isPlaying`, `showMuscleHighlight`). -/
structure UiFlags where
  isPlaying : Bool
  animationSpeed : Rat
  showMuscleHighlight : Bool
deriving Repr, DecidableEq

/-- The initial values of the transient flags (app.js lines 8-10): not
playing, speed 1.0, no muscle highlight. -/
def defaultFlags : UiFlags :=
  { isPlaying := false, animationSpeed := 1, showMuscleHighlight := false }

/-- A JavaScript runtime error raised while a function runs. -/
inductive JsError where
  | referenceError (name : String)
deriving Repr, DecidableEq

/-- The identifiers declared at module scope in js/app.js: the six `let`
globals of lines 5-10, the two `const` keys, and the hoisted function
declarations. -/
def moduleScopeIds : List String :=
  ["exercises", "bookmarkedExercises", "currentExercise", "animationSpeed",
   "isPlaying", "showMuscleHighlight", "SUPABASE_URL", "SUPABASE_ANON_KEY",
   "initExercisePage", "initExercisesPage", "initAccountPage", "getSupabase",
   "getCurrentUser", "showAuthForm", "hideAuthForm", "showAccountDashboard",
   "hideAccountDashboard", "setupAuthTabs", "setAuthMessage", "handleSignIn",
   "handleSignUp", "handleSignOut", "renderSavedExercisesList",
   "removeSavedOnAccountPage", "initializeApp", "getBaseUrl", "loadExercises",
   "loadBookmarks", "saveBookmarks", "setupEventListeners",
   "handleKeyboardNavigation", "renderExerciseGallery", "createExerciseCard",
   "viewExercise", "renderExerciseDetail", "togglePlayPause",
   "toggleSlowMotion", "toggleMuscleHighlight", "toggleBookmark",
   "toggleTipsOverlay", "backToGallery", "getDailyExercise",
   "setDailyExercise", "getCategoryIcon", "announceToScreenReader",
   "showError"]

/-- Evaluating an identifier interpolated in a template literal: a name not
declared in any enclosing scope raises a ReferenceError. -/
def evalModuleId (name : String) : Except JsError Unit :=
  if moduleScopeIds.contains name then .ok () else .error (.referenceError name)

/-- The common-mistakes block of the detail template (app.js lines 586-591):
rendered whenever the field is present (a JavaScript array, even empty, is
truthy), the empty string otherwise. -/
def commonMistakesSection (commonMistakes : Option (List String)) : String :=
  match commonMistakes with
  | some ms =>
    "<h3 style=\"margin-top: 2rem;\">Common Mistakes to Avoid</h3>" ++
    "<ul class=\"tips-list\" style=\"list-style-type: disc;\">" ++
    String.join (ms.map (fun m => "<li>" ++ m ++ "</li>")) ++ "</ul>"
  | none => ""

/-- The progression block of the detail template (app.js lines 593-598). -/
def progressionSection (progression : Option (List String)) : String :=
  match progression with
  | some ps =>
    "<h3 style=\"margin-top: 2rem;\">Progression Tips</h3>" ++
    "<ul class=\"tips-list\">" ++
    String.join (ps.map (fun p => "<li>" ++ p ++ "</li>")) ++ "</ul>"
  | none => ""

/-- The rhythm block of the detail template (app.js lines 600-604): a
string field, so the empty string is falsy and renders nothing. -/
def rhythmSection (rhythm : Option String) : String :=
  if truthyStr rhythm then
    "<div style=\"margin-top: 2rem;\"><strong>💡 Rhythm & Timing:</strong> " ++
    rhythm.getD "" ++ "</div>"
  else ""

/-- The detail markup of app.js lines 490-609 built from defined values:
header with bookmark state, animation display (video when the preview field
is truthy, category placeholder otherwise), the three control buttons with
their active classes, description, muscle tags, the always-hidden tips
overlay with the tips list, and the three conditional blocks.  Inline event
handler attributes and the static svg geometry are elided; every
interpolated datum and every conditional of the source template is kept. -/
def renderExerciseDetailMarkup (ex : Exercise) (f : UiFlags) (isBookmarked : Bool) : String :=
  "<div class=\"exercise-detail\"><header><h1>" ++ ex.name ++ "</h1>" ++
  "<button class=\"bookmark-btn " ++ (if isBookmarked then "bookmarked" else "") ++
  "\" aria-pressed=\"" ++ (if isBookmarked then "true" else "false") ++ "\">" ++
  (if isBookmarked then "Bookmarked" else "Bookmark") ++ "</button></header>" ++
  "<div class=\"exercise-animation-container\"><div class=\"animation-display\" id=\"animationDisplay\">" ++
  (if truthyStr ex.previewVideo then
    "<video id=\"exerciseVideo\" src=\"" ++ ex.previewVideo.getD "" ++ "\" muted loop playsinline></video>"
   else
    "<div class=\"placeholder-animation\">" ++ getCategoryIcon ex.category ++ "</div>") ++
  "</div><div class=\"animation-controls\">" ++
  "<button id=\"playPauseBtn\" class=\"control-btn " ++ (if f.isPlaying then "active" else "") ++ "\">" ++
  (if f.isPlaying then "Pause" else "Play") ++ "</button>" ++
  "<button id=\"slowMotionBtn\" class=\"control-btn " ++
  (if f.animationSpeed = 0.5 then "active" else "") ++ "\">Slow Motion</button>" ++
  "<button id=\"highlightMusclesBtn\" class=\"control-btn " ++
  (if f.showMuscleHighlight then "active" else "") ++ "\">Highlight Muscles</button>" ++
  "</div></div>" ++
  "<div class=\"exercise-info\"><p>" ++ ex.description ++ "</p>" ++
  "<div class=\"exercise-meta\"><span>⏱️ Duration: " ++ toString ex.duration ++ " minutes</span>" ++
  "<span class=\"difficulty-badge " ++ ex.difficulty ++ "\">" ++ ex.difficulty ++ "</span>" ++
  "<span>" ++ getCategoryIcon ex.category ++ " " ++ ex.category ++ "</span></div>" ++
  "<div class=\"muscle-groups\"><h3>Target Muscles</h3><div id=\"muscleTags\">" ++
  String.join (ex.muscleGroups.map (fun m =>
    "<span class=\"muscle-highlight " ++ (if f.showMuscleHighlight then "active" else "") ++ "\">" ++ m ++ "</span>")) ++
  "</div></div><button class=\"btn-primary\" aria-expanded=\"false\">Show Form Tips</button></div>" ++
  "<div id=\"tipsOverlay\" class=\"tips-overlay hidden\"><h3 id=\"tipsHeading\">Form Tips</h3>" ++
  "<ul class=\"tips-list\">" ++
  String.join (ex.tips.map (fun t => "<li>" ++ t ++ "</li>")) ++ "</ul>" ++
  commonMistakesSection ex.commonMistakes ++
  progressionSection ex.progression ++
  rhythmSection ex.rhythm ++
  "</div></div>"

/-- renderExerciseDetail (app.js lines 484-620).  The template literal
interpolates the identifier `backMarkup` at line 608; no declaration of that
name exists anywhere in the module (the function signature also lacks the
`options` binder its line 614 reads), so evaluating the template raises a
ReferenceError and no markup is produced. -/
def renderExerciseDetail (ex : Exercise) (f : UiFlags)
    (bookmarkedExercises : List String) : Except JsError String := do
  let body := renderExerciseDetailMarkup ex f (bookmarkedExercises.contains ex.id)
  evalModuleId "backMarkup"
  pure body

/-- The single-page-app state viewExercise acts on: the catalog, the
bookmark list, the `currentExercise` global, the transient flags and the
visibility of the two views. -/
structure SpaState where
  exercises : List Exercise
  bookmarkedExercises : List String
  currentExercise : Option Exercise
  flags : UiFlags
  galleryHidden : Bool
  detailHidden : Bool
deriving Repr, DecidableEq

/-- viewExercise (app.js lines 459-481): looks the identifier up; on a miss
it shows an error and returns with the state untouched; on a hit it sets
`currentExercise`, pushes history, swaps the views and renders the detail.
No statement of the function touches the transient flags.  Mutations made
before renderExerciseDetail raises persist; the raise propagates to the
caller (second component). -/
def viewExercise (s : SpaState) (exerciseId : String) :
    SpaState × Except JsError Unit :=
  match findExercise s.exercises exerciseId with
  | none => (s, .ok ())
  | some ex =>
    let s1 : SpaState :=
      { s with currentExercise := some ex, galleryHidden := true, detailHidden := false }
    match renderExerciseDetail ex s1.flags s1.bookmarkedExercises with
    | .error e => (s1, .error e)
    | .ok _ => (s1, .ok ())

/-- A sample catalog record with identifier a. -/
def exA : Exercise :=
  { id := "a", name := "Alpha Stretch", description := "Reach upward.",
    duration := 5, difficulty := "beginner", category := "flexibility",
    muscleGroups := ["back"], tips := ["breathe"],
    commonMistakes := none, progression := none, rhythm := none,
    previewVideo := none }

/-- A sample catalog record with identifier b. -/
def exB : Exercise :=
  { id := "b", name := "Bridge", description := "Lift the hips.",
    duration := 8, difficulty := "intermediate", category := "strength",
    muscleGroups := ["glutes"], tips := ["squeeze at the top"],
    commonMistakes := some ["rushing"], progression := some ["single leg"],
    rhythm := some "slow and even", previewVideo := none }

/-- A record lacking every optional field (no common mistakes, no
progression, no rhythm note, no preview media). -/
def minimalExercise : Exercise :=
  { id := "bodyweight-squat", name := "Bodyweight Squat",
    description := "Sit back and stand.", duration := 5,
    difficulty := "beginner", category := "strength",
    muscleGroups := ["quads"], tips := ["keep the chest up"],
    commonMistakes := none, progression := none, rhythm := none,
    previewVideo := none }

/-- A detail-view state in which exercise a is open and every transient flag
differs from its default: playing, slow motion at speed 0.5, muscle
highlight on. -/
def activeFlagsState : SpaState :=
  { exercises := [exA, exB], bookmarkedExercises := [],
    currentExercise := some exA,
    flags := { isPlaying := true, animationSpeed := 0.5, showMuscleHighlight := true },
    galleryHidden := false, detailHidden := true }

/- Helper lemmas shared by the claim theorems below. -/

theorem contains_iff_mem (bs : List String) (x : String) :
    bs.contains x = true ↔ x ∈ bs := by
  simp [List.contains]

theorem decodeStrings_encode (l : List String) :
    decodeStrings (l.map Json.str) = some l := by
  induction l with
  | nil => rfl
  | cons h t ih => simp [List.map_cons, decodeStrings, ih]

theorem decodeIds_encodeIds (l : List String) :
    decodeIds (encodeIds l) = some l := by
  simp [decodeIds, encodeIds, decodeStrings_encode]

/-- After any toggle the persisted slot holds exactly the in-memory list:
saveBookmarks serializes the updated list and the serialization decodes
back to it. -/
theorem persistedIds_toggleBookmark (s : BookmarkState) (id : String) :
    persistedIds (toggleBookmark s id).1
      = some (toggleBookmark s id).1.bookmarkedExercises := by
  simp [toggleBookmark, saveBookmarks, persistedIds, jsonParse, decodeIds_encodeIds]

/-- On a duplicate-free list, one toggle flips the membership of the toggled
identifier. -/
theorem toggleList_flip (bs : List String) (id : String) (hnd : bs.Nodup) :
    id ∈ toggleList bs id ↔ id ∉ bs := by
  unfold toggleList
  by_cases hm : id ∈ bs
  · rw [if_pos ((contains_iff_mem bs id).mpr hm)]
    simp [hm, hnd.not_mem_erase]
  · rw [if_neg (fun hc => hm ((contains_iff_mem bs id).mp hc))]
    simp [hm]

/-- On a duplicate-free list, toggling the same identifier twice preserves
membership of every identifier. -/
theorem toggleList_toggleList_mem (bs : List String) (id x : String)
    (hnd : bs.Nodup) :
    x ∈ toggleList (toggleList bs id) id ↔ x ∈ bs := by
  by_cases hm : id ∈ bs
  · have h1 : toggleList bs id = bs.erase id := by
      unfold toggleList
      rw [if_pos ((contains_iff_mem bs id).mpr hm)]
    have h2 : toggleList (bs.erase id) id = bs.erase id ++ [id] := by
      unfold toggleList
      rw [if_neg (fun hc => hnd.not_mem_erase ((contains_iff_mem _ _).mp hc))]
    rw [h1, h2]
    by_cases hx : x = id
    · subst hx
      simp [hm]
    · simp only [List.mem_append, List.mem_singleton, hx, or_false]
      exact List.mem_erase_of_ne hx
  · have h1 : toggleList bs id = bs ++ [id] := by
      unfold toggleList
      rw [if_neg (fun hc => hm ((contains_iff_mem bs id).mp hc))]
    have h2 : toggleList (bs ++ [id]) id = bs := by
      unfold toggleList
      rw [if_pos ((contains_iff_mem _ _).mpr
            (List.mem_append_right bs (List.mem_singleton_self id)))]
      rw [List.erase_append_right _ hm, List.erase_cons_head, List.append_nil]
    rw [h1, h2]

/-- C1: for every catalog and identifier, the lookup `find(id)` of
viewExercise and initExercisePage returns the exact record bearing the
identifier when one is present (identifiers being unique in the catalog),
and the not-found branch (none) when no record bears it. -/
theorem findExercise_spec (exercises : List Exercise) (id : String) :
    ((exercises.map Exercise.id).Nodup →
      ∀ e, e ∈ exercises → e.id = id → findExercise exercises id = some e)
    ∧ ((∀ e, e ∈ exercises → e.id ≠ id) → findExercise exercises id = none) := by
  constructor
  · induction exercises with
    | nil =>
      intro _ e he
      cases he
    | cons h t ih =>
      intro hnd e he heq
      rw [List.map_cons, List.nodup_cons] at hnd
      unfold findExercise
      rcases List.mem_cons.mp he with rfl | ht
      · exact List.find?_cons_of_pos _ (by simp [heq])
      · have hne : h.id ≠ id := by
          intro hh
          have hid : h.id = e.id := hh.trans heq.symm
          have hmem : e.id ∈ t.map Exercise.id := List.mem_map_of_mem Exercise.id ht
          rw [← hid] at hmem
          exact hnd.1 hmem
        rw [List.find?_cons_of_neg _ (by simp [hne])]
        exact ih hnd.2 e ht heq
  · intro habs
    apply List.find?_eq_none.mpr
    intro e he
    simp [habs e he]

/-- Witness for C1 on the concrete two-record catalog: identifier b is
found exactly, identifier z is reported not found. -/
theorem findExercise_spec_witness :
    findExercise [exA, exB] "b" = some exB
    ∧ findExercise [exA, exB] "z" = none := by
  constructor
  · exact (findExercise_spec [exA, exB] "b").1 (by decide) exB (by decide) (by decide)
  · exact (findExercise_spec [exA, exB] "z").2 (by decide)

/-- C2: toggling an identifier twice on a bookmark set (a duplicate-free
list) returns a set with the original membership, and after each of the two
toggles the slot saveBookmarks wrote deserializes to exactly the in-memory
list. -/
theorem toggleBookmark_roundTrip (bs : List String) (slot : Option JsText)
    (id x : String) (hnd : bs.Nodup) :
    (x ∈ ((toggleBookmark (toggleBookmark ⟨bs, slot⟩ id).1 id).1).bookmarkedExercises
      ↔ x ∈ bs)
    ∧ deserializesTo (toggleBookmark ⟨bs, slot⟩ id).1
    ∧ deserializesTo (toggleBookmark (toggleBookmark ⟨bs, slot⟩ id).1 id).1 := by
  refine ⟨?_, persistedIds_toggleBookmark _ _, persistedIds_toggleBookmark _ _⟩
  exact toggleList_toggleList_mem bs id x hnd

/-- Witness for C2: toggling b twice starting from the empty set leaves b
out, and both persisted snapshots deserialize to the respective in-memory
lists. -/
theorem toggleBookmark_roundTrip_witness :
    ("b" ∈ ((toggleBookmark (toggleBookmark ⟨[], none⟩ "b").1 "b").1).bookmarkedExercises
      ↔ "b" ∈ ([] : List String))
    ∧ deserializesTo (toggleBookmark ⟨[], none⟩ "b").1
    ∧ deserializesTo (toggleBookmark (toggleBookmark ⟨[], none⟩ "b").1 "b").1 :=
  toggleBookmark_roundTrip [] none "b" "b" (by decide)

/-- C3 counterexample: the stored text 42 is valid JSON but not a serialized
array of identifiers, yet loadBookmarks assigns the parsed number verbatim
instead of yielding the empty set. -/
theorem loadBookmarks_counterexample :
    decodeIds (Json.num 42) = none
    ∧ loadBookmarks (Json.arr []) (some (.json (Json.num 42))) = Json.num 42
    ∧ Json.num 42 ≠ Json.arr [] :=
  ⟨rfl, rfl, fun h => Json.noConfusion h⟩

/-- C3 amended: an absent slot leaves the in-memory value unchanged (hence
empty at session start); content JSON.parse rejects is caught and yields the
empty set; content that parses as JSON replaces the in-memory value
verbatim, even when it is not an array of identifiers.  The embedding is a
total function: no input makes loadBookmarks propagate a failure. -/
theorem loadBookmarks_amended (current : Json) (v : Json) :
    loadBookmarks current none = current
    ∧ loadBookmarks current (some .invalid) = Json.arr []
    ∧ loadBookmarks current (some (.json v)) = v :=
  ⟨rfl, rfl, rfl⟩

/-- C4: the daily selection is none exactly on the empty catalog; on a
non-empty catalog it is the element at index day-of-month modulo catalog
length, hence always an element of the catalog.  Determinism is the
statement that the value is a function of the catalog and the calendar day
alone. -/
theorem getDailyExercise_spec (exercises : List Exercise) (dayOfMonth : Nat) :
    (exercises = [] → getDailyExercise exercises dayOfMonth = none)
    ∧ (exercises ≠ [] →
        getDailyExercise exercises dayOfMonth
          = exercises[dayOfMonth % exercises.length]?
        ∧ ∃ e, getDailyExercise exercises dayOfMonth = some e ∧ e ∈ exercises) := by
  constructor
  · rintro rfl
    rfl
  · intro hne
    have hlen : exercises.length ≠ 0 := by
      simpa [List.length_eq_zero] using hne
    have hlt : dayOfMonth % exercises.length < exercises.length :=
      Nat.mod_lt _ (Nat.pos_of_ne_zero hlen)
    unfold getDailyExercise
    rw [dif_neg hlen]
    refine ⟨?_, _, rfl, List.get_mem _ _ _⟩
    rw [List.getElem?_eq_getElem hlt]
    simp [List.get_eq_getElem]

/-- Witness for C4: the empty catalog selects none; the two-record catalog
on day 7 selects index 7 mod 2 = 1, a member of the catalog. -/
theorem getDailyExercise_spec_witness :
    getDailyExercise ([] : List Exercise) 7 = none
    ∧ (getDailyExercise [exA, exB] 7 = [exA, exB][7 % 2]?
        ∧ ∃ e, getDailyExercise [exA, exB] 7 = some e ∧ e ∈ [exA, exB]) :=
  ⟨(getDailyExercise_spec [] 7).1 rfl,
   (getDailyExercise_spec [exA, exB] 7).2 (by decide)⟩

/-- C5 counterexample: toggling b into the empty bookmark set makes b
bookmarked and persists it, yet the call returns undefined (none), not the
new membership state true. -/
theorem toggleBookmark_return_counterexample :
    "b" ∈ ((toggleBookmark ⟨[], none⟩ "b").1).bookmarkedExercises
    ∧ (toggleBookmark ⟨[], none⟩ "b").2 = none := by
  exact ⟨by decide, rfl⟩

/-- C5 amended: toggleBookmark flips membership of the identifier on a
bookmark set (duplicate-free list) and persists the updated set
synchronously before returning, but it returns no value (undefined); the
function itself re-renders the affected view instead of reporting the new
membership state to the caller. -/
theorem toggleBookmark_flip_persist (bs : List String) (slot : Option JsText)
    (id : String) (hnd : bs.Nodup) :
    (id ∈ ((toggleBookmark ⟨bs, slot⟩ id).1).bookmarkedExercises ↔ id ∉ bs)
    ∧ deserializesTo (toggleBookmark ⟨bs, slot⟩ id).1
    ∧ (toggleBookmark ⟨bs, slot⟩ id).2 = none := by
  exact ⟨toggleList_flip bs id hnd, persistedIds_toggleBookmark _ _, rfl⟩

/-- Witness for C5 amended: toggling x on the set holding only a adds x,
persists the two-element list, and returns undefined. -/
theorem toggleBookmark_flip_persist_witness :
    ("x" ∈ ((toggleBookmark ⟨["a"], none⟩ "x").1).bookmarkedExercises ↔ "x" ∉ ["a"])
    ∧ deserializesTo (toggleBookmark ⟨["a"], none⟩ "x").1
    ∧ (toggleBookmark ⟨["a"], none⟩ "x").2 = none :=
  toggleBookmark_flip_persist ["a"] none "x" (by decide)

/-- C6 counterexample: an ok response whose body is the valid JSON text 42 —
not a collection of records, hence a malformed body for the catalog
endpoint — replaces the catalog with the number 42 instead of leaving it
empty, and signals no error. -/
theorem loadExercises_counterexample :
    isCollection (Json.num 42) = false
    ∧ loadExercises (Json.arr []) (.response true (.json (Json.num 42)))
        = ⟨Json.num 42, false⟩
    ∧ Json.num 42 ≠ Json.arr [] :=
  ⟨rfl, rfl, fun h => Json.noConfusion h⟩

/-- C6 amended: on an ok response whose body parses as JSON the in-memory
catalog is replaced wholesale by the parsed value — even when that value is
not a collection — and no error is signaled; on a rejected fetch, a non-ok
status, or a body JSON.parse rejects, the catalog keeps its previous value
(hence stays empty at initial load) and a user-visible error is signaled.
The replacement is a single assignment, so no partial-catalog state is
exposed. -/
theorem loadExercises_amended (pre : Json) (v : Json) (body : JsText) :
    loadExercises pre .networkError = ⟨pre, true⟩
    ∧ loadExercises pre (.response false body) = ⟨pre, true⟩
    ∧ loadExercises pre (.response true .invalid) = ⟨pre, true⟩
    ∧ loadExercises pre (.response true (.json v)) = ⟨v, false⟩ :=
  ⟨rfl, rfl, rfl, rfl⟩

/-- C7: getCurrentUser is a total function of the collaborator behaviour
(it never raises).  Without a client it is none; on a session with a user
and no error it is the SessionUser whose display name derives from the
profile metadata, else the email local-part; every error and every absent
session or session user collapses to none. -/
theorem getCurrentUser_spec :
    getCurrentUser .absent = none
    ∧ (∀ u : AuthUser,
        getCurrentUser (.present ⟨some ⟨some u⟩, none⟩)
          = some ⟨u.id, u.email, deriveDisplayName u.metadataName u.email⟩)
    ∧ (∀ r : GetSessionResponse, r.error.isSome →
        getCurrentUser (.present r) = none)
    ∧ (∀ r : GetSessionResponse, r.session = none →
        getCurrentUser (.present r) = none)
    ∧ (∀ r : GetSessionResponse, ∀ sess, r.session = some sess →
        sess.user = none → getCurrentUser (.present r) = none) := by
  refine ⟨rfl, fun u => rfl, ?_, ?_, ?_⟩
  · intro r he
    simp [getCurrentUser, he]
  · intro r hs
    simp [getCurrentUser, hs]
  · intro r sess hs hu
    simp [getCurrentUser, hs, hu]

/-- Witness for C7: a session-lookup error collapses to none. -/
theorem getCurrentUser_spec_witness :
    getCurrentUser (.present ⟨none, some "network down"⟩) = none :=
  getCurrentUser_spec.2.2.1 ⟨none, some "network down"⟩ (by decide)

/-- C8 (code defect): on the record lacking every optional field the three
optional template blocks are empty, as the claim demands, but
renderExerciseDetail itself never completes: its template interpolates the
undeclared identifier backMarkup, raising a ReferenceError on every
input. -/
theorem renderExerciseDetail_backMarkup_bug :
    renderExerciseDetail minimalExercise defaultFlags []
      = .error (.referenceError "backMarkup")
    ∧ commonMistakesSection minimalExercise.commonMistakes = ""
    ∧ progressionSection minimalExercise.progression = ""
    ∧ rhythmSection minimalExercise.rhythm = "" := by
  refine ⟨?_, rfl, rfl, rfl⟩
  have h : evalModuleId "backMarkup" = .error (.referenceError "backMarkup") := by
    unfold evalModuleId
    rw [if_neg (by decide)]
  simp [renderExerciseDetail, h]

/-- C9 counterexample: with every transient flag away from its default while
exercise a is open, opening exercise b transitions the detail view to b yet
leaves the flags exactly as they were, not at their defaults. -/
theorem viewExercise_flags_counterexample :
    (viewExercise activeFlagsState "b").1.currentExercise = some exB
    ∧ (viewExercise activeFlagsState "b").1.flags ≠ defaultFlags
    ∧ (viewExercise activeFlagsState "b").1.flags = activeFlagsState.flags := by
  have hflags : (viewExercise activeFlagsState "b").1.flags = activeFlagsState.flags := rfl
  refine ⟨rfl, ?_, hflags⟩
  rw [hflags]
  intro h
  have hplay := congrArg UiFlags.isPlaying h
  simp [activeFlagsState, defaultFlags] at hplay

/-- C9 amended: viewExercise never touches the transient flags; opening a
different exercise re-renders with the playing, animation-speed and
muscle-highlight flags left at their current values rather than reset to
defaults. -/
theorem viewExercise_preserves_flags (s : SpaState) (exerciseId : String) :
    (viewExercise s exerciseId).1.flags = s.flags := by
  unfold viewExercise
  split
  · rfl
  · dsimp only
    split
    · rfl
    · rfl

/-- When every guard passes, the rows saveExercise attempts to insert are
exactly the one user-exercise row. -/
theorem saveExercise_attempts (c : SupabaseClient) (exerciseId : String)
    (u : AuthUser) (he : exerciseId ≠ "") (herr : c.getUserResp.error = none)
    (hu : c.getUserResp.user = some u) :
    (saveExercise (some c) exerciseId).2 = [⟨u.id, exerciseId⟩] := by
  cases hie : c.insertResp.error with
  | none => simp [saveExercise, he, herr, hu, hie]
  | some e => simp [saveExercise, he, herr, hu, hie]

/-- C10: when the client is missing, the identifier is empty, the session
lookup errors, or no user is logged in, saveExercise resolves with null
data and a present error and attempts no remote insert; an insert is
attempted exactly when a client, a non-empty identifier and a logged-in
user are all present, and then it is the single user-exercise row. -/
theorem saveExercise_spec (client : Option SupabaseClient) (exerciseId : String) :
    ((client = none ∨ exerciseId = ""
        ∨ (∃ c, client = some c
            ∧ (c.getUserResp.error.isSome ∨ c.getUserResp.user = none))) →
      (saveExercise client exerciseId).1.data = none
      ∧ (saveExercise client exerciseId).1.error.isSome
      ∧ (saveExercise client exerciseId).2 = [])
    ∧ ((saveExercise client exerciseId).2 ≠ [] ↔
        ∃ c u, client = some c ∧ exerciseId ≠ ""
          ∧ c.getUserResp.error = none ∧ c.getUserResp.user = some u
          ∧ (saveExercise client exerciseId).2 = [⟨u.id, exerciseId⟩]) := by
  cases client with
  | none =>
    refine ⟨fun _ => ⟨rfl, rfl, rfl⟩, ?_, ?_⟩
    · intro h
      exact absurd rfl h
    · rintro ⟨c, u, hc, -⟩
      cases hc
  | some c =>
    by_cases he : exerciseId = ""
    · subst he
      refine ⟨fun _ => ?_, ?_, ?_⟩
      · refine ⟨?_, ?_, ?_⟩ <;> simp [saveExercise]
      · intro h
        exact absurd (by simp [saveExercise]) h
      · rintro ⟨c2, u, hc, hne, -⟩
        exact absurd rfl hne
    · cases herr : c.getUserResp.error with
      | some e =>
        refine ⟨fun _ => ?_, ?_, ?_⟩
        · refine ⟨?_, ?_, ?_⟩ <;> simp [saveExercise, he, herr]
        · intro h
          exact absurd (by simp [saveExercise, he, herr]) h
        · rintro ⟨c2, u, hc, hne, herr2, -⟩
          cases hc
          rw [herr] at herr2
          cases herr2
      | none =>
        cases hu : c.getUserResp.user with
        | none =>
          refine ⟨fun _ => ?_, ?_, ?_⟩
          · refine ⟨?_, ?_, ?_⟩ <;> simp [saveExercise, he, herr, hu]
          · intro h
            exact absurd (by simp [saveExercise, he, herr, hu]) h
          · rintro ⟨c2, u, hc, hne, herr2, hu2, -⟩
            cases hc
            rw [hu] at hu2
            cases hu2
        | some u =>
          have hrow := saveExercise_attempts c exerciseId u he herr hu
          refine ⟨?_, fun _ => ⟨c, u, rfl, he, herr, hu, hrow⟩, fun _ => ?_⟩
          · rintro (hc | he2 | ⟨c2, hc2, hbad⟩)
            · cases hc
            · exact absurd he2 he
            · cases hc2
              rcases hbad with hbad | hbad
              · rw [herr] at hbad
                cases hbad
              · rw [hu] at hbad
                cases hbad
          · simp [hrow]

/-- Witness for C10: without a client the call resolves with null data, an
error, and no attempted insert. -/
theorem saveExercise_spec_witness :
    (saveExercise none "squat").1.data = none
    ∧ (saveExercise none "squat").1.error.isSome
    ∧ (saveExercise none "squat").2 = [] :=
  (saveExercise_spec none "squat").1 (Or.inl rfl)

end Moveo
